import Mathlib

/-!
Verification development for the OutlookManager mailbox access engine
(`src/main.py`).  The Python source is shallowly embedded: pure helpers
become Lean functions, the IMAP server / OAuth endpoint / decoding
libraries become explicit function-valued parameters, Python exceptions
become `Except` values, and the process-wide listing cache becomes an
explicit state value threaded through `list_emails`.
-/

set_option autoImplicit false

namespace Outlook

/-- Errors raised by the core as `fastapi.HTTPException(status, detail)`. -/
inductive AppError where
  | http (statusCode : Nat) (detail : String)
  deriving DecidableEq, Repr

/-- Email summary record (`EmailItem` pydantic model, `src/main.py` lines 68-77). -/
structure EmailItem where
  message_id : String
  folder : String
  subject : String
  from_email : String
  date : String
  is_read : Bool
  has_attachments : Bool
  sender_initial : String
  deriving DecidableEq, Repr

/-- Listing response (`EmailListResponse`, `src/main.py` lines 78-84). -/
structure EmailListResponse where
  email_id : String
  folder_view : String
  page : Nat
  page_size : Nat
  total_emails : Nat
  emails : List EmailItem
  deriving DecidableEq, Repr

/-- Detail response (`EmailDetailsResponse`, `src/main.py` lines 93-100). -/
structure EmailDetailsResponse where
  message_id : String
  subject : String
  from_email : String
  to_email : String
  date : String
  body_plain : Option String
  body_html : Option String
  deriving DecidableEq, Repr

/-! ### Composite message identifiers

`src/main.py` line 535 formats `f"{folder_name}-{fetched_msg_id.decode()}"`;
line 601 parses with `message_id.split('-', 1)` and maps the `ValueError`
of a separator-free string to `HTTPException(400)` (line 603). -/

/-- Format of a composite message id (`src/main.py` line 535). -/
def format_message_id (folderName nativeId : String) : String :=
  folderName ++ "-" ++ nativeId

/-- Python `s.split('-', 1)` on character lists: split at the first `'-'`,
returning `none` when no separator occurs (the two-target unpacking then
raises `ValueError` in the source). -/
def splitFirstDash : List Char → Option (List Char × List Char)
  | [] => none
  | c :: rest =>
    if c = '-' then some ([], rest)
    else
      match splitFirstDash rest with
      | some (a, b) => some (c :: a, b)
      | none => none

/-- Parse of a composite message id (`src/main.py` line 601). -/
def parse_message_id (s : String) : Option (String × String) :=
  match splitFirstDash s.data with
  | some (a, b) => some (String.mk a, String.mk b)
  | none => none

/-- The parse stage of `get_email_details` (`src/main.py` lines 599-603):
a separator-free id raises `HTTPException(400, "Invalid message_id format")`. -/
def parse_message_id_stage (s : String) : Except AppError (String × String) :=
  match parse_message_id s with
  | some p => .ok p
  | none => .error (.http 400 "Invalid message_id format")

theorem splitFirstDash_append (a b : List Char) (ha : '-' ∉ a) :
    splitFirstDash (a ++ '-' :: b) = some (a, b) := by
  induction a with
  | nil => simp [splitFirstDash]
  | cons c cs ih =>
    simp only [List.mem_cons, not_or] at ha
    simp only [List.cons_append, splitFirstDash, if_neg (by simpa using Ne.symm ha.1),
      List.append_eq]
    rw [ih ha.2]

theorem splitFirstDash_none (s : List Char) (h : '-' ∉ s) :
    splitFirstDash s = none := by
  induction s with
  | nil => rfl
  | cons c cs ih =>
    simp only [List.mem_cons, not_or] at h
    simp only [splitFirstDash, if_neg (by simpa using Ne.symm h.1)]
    rw [ih h.2]

theorem data_append (s t : String) : (s ++ t).data = s.data ++ t.data := rfl

/-! ### Python string comparison and stable sorting

`email_items.sort(key=lambda x: x.date, reverse=True)` (line 562) and
`paginated_email_meta.sort(key=lambda x: x['folder'])` (line 490) are
stable sorts keyed by Python strings, which compare lexicographically by
code point.  They are embedded as a stable insertion sort over a boolean
comparator. -/

/-- Python string `<`: lexicographic comparison by code point. -/
def strLtB : List Char → List Char → Bool
  | [], [] => false
  | [], _ :: _ => true
  | _ :: _, [] => false
  | a :: as, b :: bs =>
    if a.toNat < b.toNat then true
    else if b.toNat < a.toNat then false
    else strLtB as bs

theorem strLtB_asymm : ∀ a b : List Char, strLtB a b = true → strLtB b a = false
  | [], [], h => by simp [strLtB] at h
  | [], _ :: _, _ => rfl
  | _ :: _, [], h => by simp [strLtB] at h
  | a :: as, b :: bs, h => by
    simp only [strLtB] at h ⊢
    by_cases hab : a.toNat < b.toNat
    · rw [if_neg (by omega : ¬b.toNat < a.toNat), if_pos hab]
    · by_cases hba : b.toNat < a.toNat
      · rw [if_neg hab, if_pos hba] at h
        exact absurd h (by simp)
      · rw [if_neg hab, if_neg hba] at h
        rw [if_neg hba, if_neg hab]
        exact strLtB_asymm as bs h

theorem strLtB_false_trans : ∀ a b c : List Char,
    strLtB a b = false → strLtB b c = false → strLtB a c = false
  | [], b, c, h1, h2 => by
    cases b with
    | nil => exact h2
    | cons y bs => simp [strLtB] at h1
  | _ :: _, b, [], _, _ => rfl
  | x :: as, b, z :: cs, h1, h2 => by
    cases b with
    | nil => simp [strLtB] at h2
    | cons y bs =>
      simp only [strLtB] at h1 h2 ⊢
      by_cases hxy : x.toNat < y.toNat
      · rw [if_pos hxy] at h1
        exact absurd h1 (by simp)
      · by_cases hyz : y.toNat < z.toNat
        · rw [if_pos hyz] at h2
          exact absurd h2 (by simp)
        · rw [if_neg (by omega : ¬x.toNat < z.toNat)]
          by_cases hzx : z.toNat < x.toNat
          · rw [if_pos hzx]
          · rw [if_neg hzx]
            rw [if_neg hxy, if_neg (by omega : ¬y.toNat < x.toNat)] at h1
            rw [if_neg hyz, if_neg (by omega : ¬z.toNat < y.toNat)] at h2
            exact strLtB_false_trans as bs cs h1 h2

/-- Stable insertion step: `x` is placed before the first element it may
precede, so elements comparing equal keep their original relative order,
as Python's stable sort does. -/
def insertD {α : Type} (le : α → α → Bool) (x : α) : List α → List α
  | [] => [x]
  | y :: ys => if le x y then x :: y :: ys else y :: insertD le x ys

/-- Stable sort with boolean comparator `le` (`a` may come before `b` iff
`le a b`), the embedding of Python's stable `list.sort`. -/
def sortD {α : Type} (le : α → α → Bool) : List α → List α
  | [] => []
  | x :: xs => insertD le x (sortD le xs)

theorem mem_insertD {α : Type} (le : α → α → Bool) (x a : α) :
    ∀ l : List α, a ∈ insertD le x l ↔ a = x ∨ a ∈ l
  | [] => by simp [insertD]
  | y :: ys => by
    simp only [insertD]
    split
    · simp [or_comm, or_assoc, or_left_comm]
    · simp only [List.mem_cons, mem_insertD le x a ys]
      tauto

theorem mem_sortD {α : Type} (le : α → α → Bool) (a : α) :
    ∀ l : List α, a ∈ sortD le l ↔ a ∈ l
  | [] => Iff.rfl
  | x :: xs => by
    simp only [sortD, mem_insertD, List.mem_cons, mem_sortD le a xs]

theorem pairwise_insertD {α : Type} (le : α → α → Bool)
    (htotal : ∀ a b, le a b = true ∨ le b a = true)
    (htrans : ∀ a b c, le a b = true → le b c = true → le a c = true)
    (x : α) : ∀ l : List α, l.Pairwise (fun a b => le a b = true) →
      (insertD le x l).Pairwise (fun a b => le a b = true)
  | [], _ => by simp [insertD]
  | y :: ys, h => by
    rw [List.pairwise_cons] at h
    simp only [insertD]
    split
    · rename_i hxy
      refine List.Pairwise.cons ?_ (List.Pairwise.cons h.1 h.2)
      intro z hz
      rcases List.mem_cons.mp hz with rfl | hz
      · exact hxy
      · exact htrans x y z hxy (h.1 z hz)
    · rename_i hxy
      refine List.Pairwise.cons ?_ (pairwise_insertD le htotal htrans x ys h.2)
      intro z hz
      rcases (mem_insertD le x z ys).mp hz with rfl | hz
      · rcases htotal z y with hc | hc
        · exact absurd hc hxy
        · exact hc
      · exact h.1 z hz

theorem pairwise_sortD {α : Type} (le : α → α → Bool)
    (htotal : ∀ a b, le a b = true ∨ le b a = true)
    (htrans : ∀ a b c, le a b = true → le b c = true → le a c = true) :
    ∀ l : List α, (sortD le l).Pairwise (fun a b => le a b = true)
  | [] => List.Pairwise.nil
  | x :: xs =>
    pairwise_insertD le htotal htrans x (sortD le xs)
      (pairwise_sortD le htotal htrans xs)

/-! ### Cache key prefixes

`EmailCache.clear_user` (lines 414-417) removes every key
`k.startswith(f"{email}:")`.  `startswith` is embedded on character
lists. -/

/-- Python `s.startswith(pre)` on character lists. -/
def listPre : List Char → List Char → Bool
  | [], _ => true
  | _ :: _, [] => false
  | a :: as, b :: bs => a == b && listPre as bs

theorem listPre_self_append : ∀ a b : List Char, listPre a (a ++ b) = true
  | [], _ => rfl
  | c :: cs, b => by simp [listPre, listPre_self_append cs b]

theorem listPre_colon : ∀ l1 l2 r : List Char, ':' ∉ l1 → ':' ∉ l2 →
    listPre (l1 ++ [':']) (l2 ++ ':' :: r) = true → l1 = l2
  | [], [], _, _, _, _ => rfl
  | [], c :: l2, _, h1, h2, hp => by
    simp only [List.nil_append, List.cons_append, listPre, Bool.and_eq_true,
      beq_iff_eq] at hp
    exact absurd (h2 (by rw [hp.1]; exact List.mem_cons_self c l2)) id
  | a :: l1, [], _, h1, h2, hp => by
    simp only [List.cons_append, List.nil_append, listPre, Bool.and_eq_true,
      beq_iff_eq] at hp
    exact absurd (h1 (by rw [← hp.1]; exact List.mem_cons_self a l1)) id
  | a :: l1, b :: l2, r, h1, h2, hp => by
    simp only [List.cons_append, listPre, Bool.and_eq_true, beq_iff_eq] at hp
    have h1' : ':' ∉ l1 := fun hc => h1 (List.mem_cons_of_mem a hc)
    have h2' : ':' ∉ l2 := fun hc => h2 (List.mem_cons_of_mem b hc)
    rw [hp.1, listPre_colon l1 l2 r h1' h2' hp.2]

/-! ### Message decoder (`src/main.py` lines 133-194, 523-543)

The Python standard-library decoders are abstracted as function-valued
parameters in `DecodeEnv`; a library call that can raise is modelled as
an `Option`-valued function, `none` standing for the raised exception at
that call site. -/

/-- One element of the list returned by `email.header.decode_header`:
either an already-decoded string or raw bytes with an optional charset. -/
inductive HeaderPart where
  | txt (s : String)
  | bin (b : List Nat) (charset : Option String)
  deriving DecidableEq, Repr

/-- A decoded `datetime.datetime` as produced by
`email.utils.parsedate_to_datetime`: a calendar time plus an optional
UTC offset in minutes (`none` = naive datetime). -/
structure PyDateTime where
  year : Nat
  month : Nat
  day : Nat
  hour : Nat
  minute : Nat
  second : Nat
  tzOffsetMinutes : Option Int
  deriving DecidableEq, Repr

/-- Abstracted library decoders.
`decodeHeaderLib` models `email.header.decode_header` (`none` = raised);
`decodeBytesWith` models `bytes.decode(charset, errors='replace')`,
which raises `LookupError` on an unrecognized charset (`none`);
`utf8Replace` models the total `bytes.decode('utf-8', 'replace')`;
`parsedate` models `email.utils.parsedate_to_datetime`
(`none` = raised). -/
structure DecodeEnv where
  decodeHeaderLib : String → Option (List HeaderPart)
  decodeBytesWith : String → List Nat → Option String
  utf8Replace : List Nat → String
  parsedate : String → Option PyDateTime

/-- Python `s or dflt` for strings: the empty string is falsy. -/
def pyOr (s dflt : String) : String := if s = "" then dflt else s

/-- The per-part body of the loop in `decode_header_value`
(`src/main.py` lines 141-148): bytes are decoded with the announced
charset (default utf-8), and a `LookupError`/`UnicodeDecodeError` falls
back to permissive utf-8 decoding with replacement characters. -/
def decodePart (env : DecodeEnv) : HeaderPart → String
  | .txt s => s
  | .bin b cs =>
    match env.decodeBytesWith (cs.getD "utf-8") b with
    | some s => s
    | none => env.utf8Replace b

/-- `decode_header_value` (`src/main.py` lines 133-151).  `none` input
models a `msg.get(...)` miss (`None` in Python); an exception from
`decode_header` itself is caught and the raw value returned. -/
def decode_header_value (env : DecodeEnv) (headerValue : Option String) : String :=
  match headerValue with
  | none => ""
  | some s =>
    if s = "" then ""
    else
      match env.decodeHeaderLib s with
      | some parts => String.join (parts.map (decodePart env))
      | none => s

/-- Subject construction for a listing record (`src/main.py` line 521):
`decode_header_value(msg.get('Subject')) or '(No Subject)'`. -/
def subject_of_header (env : DecodeEnv) (raw : Option String) : String :=
  pyOr (decode_header_value env raw) "(No Subject)"

/-- Sender-initial extraction (`src/main.py` lines 538-543): the first
ASCII letter of the decoded From field, upper-cased, else `"?"`. -/
def sender_initial_of (fromEmail : String) : String :=
  if fromEmail = "" then "?"
  else
    match fromEmail.data.find? (fun c => c.isAlpha) with
    | some c => String.mk [c.toUpper]
    | none => "?"

/-- Two-digit zero padding, as in `datetime.isoformat`. -/
def pad2 (n : Nat) : String := if n < 10 then "0" ++ toString n else toString n

/-- Four-digit zero padding for the year, as in `datetime.isoformat`. -/
def pad4 (n : Nat) : String :=
  if n < 10 then "000" ++ toString n
  else if n < 100 then "00" ++ toString n
  else if n < 1000 then "0" ++ toString n
  else toString n

/-- UTC-offset rendering `±HH:MM` used by `datetime.isoformat`. -/
def tzString (o : Int) : String :=
  if 0 ≤ o then "+" ++ pad2 (o.toNat / 60) ++ ":" ++ pad2 (o.toNat % 60)
  else "-" ++ pad2 ((-o).toNat / 60) ++ ":" ++ pad2 ((-o).toNat % 60)

/-- `datetime.isoformat()` for a second-precision datetime (the decoded
mail dates have zero microseconds, so Python omits the fraction). -/
def PyDateTime.isoformat (d : PyDateTime) : String :=
  pad4 d.year ++ "-" ++ pad2 d.month ++ "-" ++ pad2 d.day ++ "T" ++
  pad2 d.hour ++ ":" ++ pad2 d.minute ++ ":" ++ pad2 d.second ++
  (match d.tzOffsetMinutes with
   | none => ""
   | some o => tzString o)

/-- Days since 1970-01-01 of a proleptic Gregorian civil date
(standard era/year-of-era computation).  Specification-side helper used
only to express the temporal order of decoded dates. -/
def civilDays (y m d : Int) : Int :=
  let y2 := if m ≤ 2 then y - 1 else y
  let era := (if 0 ≤ y2 then y2 else y2 - 399) / 400
  let yoe := y2 - era * 400
  let mp := (m + 9) % 12
  let doy := (153 * mp + 2) / 5 + d - 1
  let doe := yoe * 365 + yoe / 4 - yoe / 100 + doy
  era * 146097 + doe - 719468

/-- Specification-side definition: the UTC instant (seconds) denoted by
a decoded datetime.  Comparing aware datetimes in Python compares these
instants; this is the "decoded date" order of the specification. -/
def dateInstant (d : PyDateTime) : Int :=
  (civilDays d.year d.month d.day * 1440 + d.hour * 60 + d.minute
    - d.tzOffsetMinutes.getD 0) * 60 + d.second

/-- Date field of a listing record (`src/main.py` lines 523-533): the
ISO format of the parsed Date header, with the current wall-clock ISO
string as fallback on a missing or unparseable header. -/
def format_date_field (env : DecodeEnv) (dateStr nowIso : String) : String :=
  if dateStr = "" then nowIso
  else
    match env.parsedate dateStr with
    | some d => d.isoformat
    | none => nowIso

/-! ### Body extraction (`extract_email_content`, lines 154-194) -/

/-- One part of a (possibly multipart) message as the extraction walk
sees it: content type, Content-Disposition string, announced charset,
and the `get_payload(decode=True)` result (`none` for the `None` payload
of container parts). -/
structure MsgPart where
  ctype : String
  disposition : String
  charset : Option String
  payload : Option (List Nat)
  deriving Repr

/-- A parsed message: either non-multipart, or multipart with the parts
listed in `walk()` order. -/
inductive PyMessage where
  | single (p : MsgPart)
  | multi (parts : List MsgPart)
  deriving Repr

/-- Python substring test `needle in hay` on character lists. -/
def listInfixB (n : List Char) : List Char → Bool
  | [] => n.isEmpty
  | c :: t => listPre n (c :: t) || listInfixB n t

/-- Python `str.lower()`. -/
def strToLower (s : String) : String := String.mk (s.data.map Char.toLower)

/-- `'attachment' in content_disposition.lower()` (`src/main.py` line 164). -/
def hasAttachmentDisp (disp : String) : Bool :=
  listInfixB "attachment".data (strToLower disp).data

/-- Body of the multipart walk loop (`src/main.py` lines 160-176):
skip attachments, decode the payload with the announced charset
(replacement on undecodable bytes), keep the first `text/plain` and the
first `text/html` part; a decoding exception skips the part. -/
def stepPart (env : DecodeEnv) (acc : String × String) (p : MsgPart) : String × String :=
  if hasAttachmentDisp p.disposition then acc
  else
    match p.payload with
    | none => acc
    | some b =>
      if b.isEmpty then acc
      else
        match env.decodeBytesWith (p.charset.getD "utf-8") b with
        | none => acc
        | some content =>
          if p.ctype = "text/plain" && decide (acc.1 = "") then (content, acc.2)
          else if p.ctype = "text/html" && decide (acc.2 = "") then (acc.1, content)
          else acc

/-- `extract_email_content` (`src/main.py` lines 154-194). -/
def extract_email_content (env : DecodeEnv) : PyMessage → String × String
  | .multi parts => parts.foldl (stepPart env) ("", "")
  | .single p =>
    match p.payload with
    | none => ("", "")
    | some b =>
      if b.isEmpty then ("", "")
      else
        match env.decodeBytesWith (p.charset.getD "utf-8") b with
        | none => ("", "")
        | some content =>
          if p.ctype = "text/plain" then (content, "")
          else if p.ctype = "text/html" then ("", content)
          else (content, "")

/-! ### Token broker (`get_access_token`, `src/main.py` lines 315-357) -/

/-- Outcome of the one-round-trip token exchange with the identity
provider, as seen at the call site of `client.post` /
`raise_for_status` / `response.json()`. -/
inductive TokenOutcome where
  | httpError
  | badResponse
  | okNoToken
  | okToken (t : String)
  deriving DecidableEq, Repr

/-- `get_access_token` (`src/main.py` lines 315-357).
`httpError` is an `httpx.HTTPError` — a transport failure or a non-2xx
status such as the HTTP 400 answered for a bad refresh token
(`raise_for_status`); `badResponse` is any other exception (line 353);
`okNoToken` is a 2xx JSON body lacking `access_token`.  With
`checkOnly` the failures come back as the value `none`; otherwise they
raise `HTTPException`. -/
def get_access_token (o : TokenOutcome) (checkOnly : Bool) :
    Except AppError (Option String) :=
  match o with
  | .okToken t => .ok (some t)
  | .okNoToken =>
    if checkOnly then .ok none
    else .error (.http 401 "Failed to obtain access token")
  | .httpError =>
    if checkOnly then .ok none
    else .error (.http 401 "Invalid credentials")
  | .badResponse =>
    if checkOnly then .ok none
    else .error (.http 500 "Token acquisition failed")

/-- `check_account_status` (`src/main.py` lines 792-795): the check-only
token acquisition, reporting liveness as `token is not None`. -/
def check_account_status (o : TokenOutcome) : Except AppError Bool :=
  (get_access_token o true).map Option.isSome

/-! ### Result cache (`EmailCache`, `src/main.py` lines 392-419) -/

/-- TTL of the listing cache (`EmailCache.__init__`, 300 seconds). -/
def cacheTtl : Nat := 300

/-- The cache state: key string to (value, creation timestamp). -/
def Cache : Type := String → Option (EmailListResponse × Nat)

/-- `EmailCache.get_key` (line 397-398): `f"{email}:{folder}:{page}:{page_size}"`. -/
def cache_key (email folder : String) (page pageSize : Nat) : String :=
  email ++ ":" ++ folder ++ ":" ++ toString page ++ ":" ++ toString pageSize

/-- `EmailCache.get` (lines 400-408): lazy TTL expiry, evicting an
expired entry on the read that discovers it. -/
def cache_get (c : Cache) (email folder : String) (page pageSize t : Nat) :
    Option EmailListResponse × Cache :=
  match c (cache_key email folder page pageSize) with
  | some (v, ts) =>
    if t - ts < cacheTtl then (some v, c)
    else (none, fun k => if k = cache_key email folder page pageSize then none else c k)
  | none => (none, c)

/-- `EmailCache.set` (lines 410-412). -/
def cache_set (c : Cache) (email folder : String) (page pageSize : Nat)
    (v : EmailListResponse) (t : Nat) : Cache :=
  fun k => if k = cache_key email folder page pageSize then some (v, t) else c k

/-- `EmailCache.clear_user` (lines 414-417): delete every key
`k.startswith(f"{email}:")`. -/
def clear_user (c : Cache) (email : String) : Cache :=
  fun k => if listPre (email ++ ":").data k.data then none else c k

/-! ### Cross-folder pager (`_sync_list_emails`, `src/main.py` lines 436-590) -/

/-- Raw header record of one fetched message: the `Subject`, `From` and
`Date` header values as `msg.get` returns them (`none` = absent). -/
structure RawHeader where
  subject : Option String
  fromField : Option String
  date : Option String
  deriving DecidableEq, Repr

/-- The IMAP server as the listing path observes it.
`search f` is the id sequence of `SEARCH ALL` in folder `f`, in server
order; `none` models a folder that fails to open or search (exception or
non-OK status, lines 457-480).  `fetchHeaders f ids` is the batched
header fetch (line 502); `none` models a non-OK status or exception for
that folder group (lines 504-505, 557-559). -/
structure ImapServer where
  search : String → Option (List Nat)
  fetchHeaders : String → List Nat → Option (List (Nat × RawHeader))

/-- Folder resolution (`src/main.py` lines 448-454). -/
def foldersToCheck (folderView : String) : List String :=
  if folderView = "inbox" then ["INBOX"]
  else if folderView = "junk" then ["Junk"]
  else ["INBOX", "Junk"]

/-- The candidate order (lines 456-480): per folder, the searched id
sequence reversed and tagged with its folder, folders concatenated in
folder-list order; a failing folder is skipped. -/
def candidateOrder (server : ImapServer) (folders : List String) :
    List (String × Nat) :=
  folders.foldl
    (fun acc f =>
      match server.search f with
      | none => acc
      | some ids => acc ++ ids.reverse.map (fun i => (f, i)))
    []

/-- The pagination slice `l[(page-1)*page_size : (page-1)*page_size + page_size]`
(lines 483-486). -/
def pageSliceOf {α : Type} (l : List α) (page pageSize : Nat) : List α :=
  (l.drop ((page - 1) * pageSize)).take pageSize

/-- Comparator of `paginated_email_meta.sort(key=lambda x: x['folder'])`
(line 490): ascending by folder name. -/
def folderLe (a b : String × Nat) : Bool := !strLtB b.1.data a.1.data

/-- `itertools.groupby` over the folder-sorted slice (line 492): group
consecutive entries carrying the same folder. -/
def groupConsec : List (String × Nat) → List (String × List Nat)
  | [] => []
  | (f, i) :: rest =>
    match groupConsec rest with
    | [] => [(f, [i])]
    | (g, js) :: gs =>
      if f = g then (f, i :: js) :: gs else (f, [i]) :: (g, js) :: gs

/-- Construction of one listing record (`src/main.py` lines 518-555). -/
def mkItem (env : DecodeEnv) (folderName : String) (msgId : Nat)
    (h : RawHeader) (nowIso : String) : EmailItem :=
  let fromEmail := pyOr (decode_header_value env h.fromField) "(Unknown Sender)"
  { message_id := format_message_id folderName (toString msgId)
    folder := folderName
    subject := subject_of_header env h.subject
    from_email := fromEmail
    date := format_date_field env (h.date.getD "") nowIso
    is_read := false
    has_attachments := false
    sender_initial := sender_initial_of fromEmail }

/-- The batched fetch loop over folder groups (lines 492-559): one fetch
per group, a failing group dropped silently, records decoded in the
order the server returns them. -/
def fetchPhase (env : DecodeEnv) (server : ImapServer) (nowIso : String)
    (groups : List (String × List Nat)) : List EmailItem :=
  groups.foldl
    (fun acc g =>
      match server.fetchHeaders g.1 g.2 with
      | none => acc
      | some recs => acc ++ recs.map (fun r => mkItem env g.1 r.1 r.2 nowIso))
    []

/-- Comparator of the final sort
`email_items.sort(key=lambda x: x.date, reverse=True)` (line 562):
descending by the date string. -/
def dateGe (a b : EmailItem) : Bool := !strLtB a.date.data b.date.data

/-- The final, user-visible ordering step (lines 561-562). -/
def sortByDateDesc (items : List EmailItem) : List EmailItem :=
  sortD dateGe items

/-- `_sync_list_emails` (`src/main.py` lines 436-587).  `connectOk` and
`authOk` model the `IMAP4_SSL` constructor and the XOAUTH2
`authenticate` call raising.  The returned `Bool` is true iff the
function exits with the protocol connection still open: the normal path
logs out at line 565 and the `except` handler at lines 580-587 logs out
any open connection, so every path closes. -/
def sync_list_emails (connectOk authOk : Bool) (env : DecodeEnv)
    (server : ImapServer) (emailAddr folderView : String)
    (page pageSize : Nat) (nowIso : String) :
    Except AppError EmailListResponse × Bool :=
  if !connectOk then (.error (.http 500 "Failed to retrieve emails"), false)
  else if !authOk then (.error (.http 500 "Failed to retrieve emails"), false)
  else
    let candidates := candidateOrder server (foldersToCheck folderView)
    let pageMeta := pageSliceOf candidates page pageSize
    let groups := groupConsec (sortD folderLe pageMeta)
    let items := fetchPhase env server nowIso groups
    (.ok { email_id := emailAddr
           folder_view := folderView
           page := page
           page_size := pageSize
           total_emails := candidates.length
           emails := sortByDateDesc items }, false)

/-- `list_emails` (`src/main.py` lines 421-590): optional whole-account
invalidation on `force_refresh`, cache lookup, token acquisition, live
fetch, cache store at the current time `t`. -/
def list_emails (c : Cache) (emailAddr folderView : String)
    (page pageSize : Nat) (forceRefresh : Bool) (tok : TokenOutcome)
    (connectOk authOk : Bool) (env : DecodeEnv) (server : ImapServer)
    (nowIso : String) (t : Nat) :
    Except AppError EmailListResponse × Cache :=
  let c0 := if forceRefresh then clear_user c emailAddr else c
  match cache_get c0 emailAddr folderView page pageSize t with
  | (some r, c1) => (.ok r, c1)
  | (none, c1) =>
    match get_access_token tok false with
    | .error e => (.error e, c1)
    | .ok _ =>
      match sync_list_emails connectOk authOk env server emailAddr folderView
          page pageSize nowIso with
      | (.ok r, _) => (.ok r, cache_set c1 emailAddr folderView page pageSize r t)
      | (.error e, _) => (.error e, c1)

/-! ### Detail operation (`_sync_get_email_details`, lines 597-673) -/

/-- The full RFC822 message of the detail fetch, as header lookups and
`extract_email_content` see it. -/
structure RawFullMessage where
  subject : Option String
  fromField : Option String
  toField : Option String
  date : Option String
  content : PyMessage
  deriving Repr

/-- Outcome of the protocol phase of `_sync_get_email_details`:
`connectFail` = `IMAP4_SSL` constructor raises (no connection exists),
`authFail` = `authenticate` raises, `opRaise` = any later library call
raises a generic exception, `fetchNotOk` = the fetch returns a non-OK
status or no data (line 622), `fetchOk` = full message retrieved. -/
inductive DetailOutcome where
  | connectFail
  | authFail
  | opRaise
  | fetchNotOk
  | fetchOk (m : RawFullMessage)
  deriving Repr

/-- `_sync_get_email_details` (`src/main.py` lines 607-673).  The
returned `Bool` is true iff the function exits with the connection still
open.  The generic `except Exception` handler (lines 663-670) logs out,
and the success path logs out at line 649; but the
`HTTPException(404, "Email not found")` raised at line 623 is re-raised
by `except HTTPException: raise` (lines 661-662) without any logout, so
that path leaks the connection. -/
def sync_get_email_details (o : DetailOutcome) (env : DecodeEnv)
    (messageId nowIso : String) :
    Except AppError EmailDetailsResponse × Bool :=
  match o with
  | .connectFail => (.error (.http 500 "Failed to retrieve email details"), false)
  | .authFail => (.error (.http 500 "Failed to retrieve email details"), false)
  | .opRaise => (.error (.http 500 "Failed to retrieve email details"), false)
  | .fetchNotOk => (.error (.http 404 "Email not found"), true)
  | .fetchOk m =>
    let bodies := extract_email_content env m.content
    (.ok { message_id := messageId
           subject := decode_header_value env (some (m.subject.getD "(No Subject)"))
           from_email := decode_header_value env (some (m.fromField.getD "(Unknown Sender)"))
           to_email := decode_header_value env (some (m.toField.getD "(Unknown Recipient)"))
           date := format_date_field env (m.date.getD "") nowIso
           body_plain := if bodies.1 = "" then none else some bodies.1
           body_html := if bodies.2 = "" then none else some bodies.2 }, false)

/-- `get_email_details` (`src/main.py` lines 597-673): composite-id
parse stage, token acquisition, then the synchronous protocol part. -/
def get_email_details (messageId : String) (tok : TokenOutcome)
    (o : DetailOutcome) (env : DecodeEnv) (nowIso : String) :
    Except AppError EmailDetailsResponse :=
  match parse_message_id_stage messageId with
  | .error e => .error e
  | .ok _ =>
    match get_access_token tok false with
    | .error e => .error e
    | .ok _ => (sync_get_email_details o env messageId nowIso).1

/-! ### Supporting lemmas -/

theorem dateGe_total (a b : EmailItem) : dateGe a b = true ∨ dateGe b a = true := by
  unfold dateGe
  cases h : strLtB a.date.data b.date.data with
  | false => exact Or.inl rfl
  | true => right; rw [strLtB_asymm _ _ h]; rfl

theorem dateGe_trans (a b c : EmailItem) :
    dateGe a b = true → dateGe b c = true → dateGe a c = true := by
  unfold dateGe
  intro h1 h2
  rw [Bool.not_eq_true'] at h1 h2 ⊢
  exact strLtB_false_trans _ _ _ h1 h2

theorem cache_key_data (e f : String) (p s : Nat) :
    (cache_key e f p s).data
      = e.data ++ ':' :: (f ++ ":" ++ toString p ++ ":" ++ toString s).data := by
  show (((((e.data ++ [':']) ++ f.data) ++ [':']) ++ (toString p).data) ++ [':'])
        ++ (toString s).data
      = e.data ++ ':' :: ((((f.data ++ [':']) ++ (toString p).data) ++ [':'])
        ++ (toString s).data)
  simp [List.append_assoc]

theorem listPre_cache_key (e f : String) (p s : Nat) :
    listPre (e ++ ":").data (cache_key e f p s).data = true := by
  have h := listPre_self_append (e.data ++ [':'])
      ((f ++ ":" ++ toString p ++ ":" ++ toString s).data)
  rw [List.append_assoc] at h
  rw [cache_key_data]
  exact h

theorem clear_user_own_key (c : Cache) (e f : String) (p s : Nat) :
    clear_user c e (cache_key e f p s) = none := by
  unfold clear_user
  rw [listPre_cache_key]
  rfl

theorem cache_get_cleared (c : Cache) (e f : String) (p s t : Nat) :
    cache_get (clear_user c e) e f p s t = (none, clear_user c e) := by
  unfold cache_get
  rw [clear_user_own_key]

theorem clear_user_no_entry (c : Cache) (e : String) (k : String)
    (h : listPre (e ++ ":").data k.data = true) : clear_user c e k = none := by
  unfold clear_user
  rw [h]
  rfl

theorem sync_list_emails_ok (connectOk authOk : Bool) (env : DecodeEnv)
    (server : ImapServer) (emailAddr folderView : String) (page pageSize : Nat)
    (nowIso : String) (r : EmailListResponse)
    (h : (sync_list_emails connectOk authOk env server emailAddr folderView
        page pageSize nowIso).1 = .ok r) :
    r = { email_id := emailAddr
          folder_view := folderView
          page := page
          page_size := pageSize
          total_emails := (candidateOrder server (foldersToCheck folderView)).length
          emails := sortByDateDesc (fetchPhase env server nowIso (groupConsec
            (sortD folderLe (pageSliceOf
              (candidateOrder server (foldersToCheck folderView)) page pageSize)))) } := by
  cases connectOk with
  | false => simp [sync_list_emails] at h
  | true =>
    cases authOk with
    | false => simp [sync_list_emails] at h
    | true =>
      simp only [sync_list_emails, Bool.not_true, Bool.false_eq_true, if_false,
        Except.ok.injEq] at h
      exact h.symm

theorem mem_fetchPhase_flags (env : DecodeEnv) (server : ImapServer)
    (nowIso : String) :
    ∀ (groups : List (String × List Nat)) (acc : List EmailItem),
      (∀ x ∈ acc, x.is_read = false ∧ x.has_attachments = false) →
      ∀ it ∈ groups.foldl
        (fun acc g =>
          match server.fetchHeaders g.1 g.2 with
          | none => acc
          | some recs => acc ++ recs.map (fun r => mkItem env g.1 r.1 r.2 nowIso)) acc,
        it.is_read = false ∧ it.has_attachments = false
  | [], acc, hacc, it, hit => hacc it hit
  | g :: gs, acc, hacc, it, hit => by
    rw [List.foldl_cons] at hit
    refine mem_fetchPhase_flags env server nowIso gs _ ?_ it hit
    intro x hx
    cases hfetch : server.fetchHeaders g.1 g.2 with
    | none =>
      rw [hfetch] at hx
      exact hacc x hx
    | some recs =>
      rw [hfetch] at hx
      rcases List.mem_append.mp hx with hx | hx
      · exact hacc x hx
      · rcases List.mem_map.mp hx with ⟨rec, _, rfl⟩
        exact ⟨rfl, rfl⟩

/-! ### Concrete fixtures used by witnesses and counterexamples -/

/-- A benign decoding environment: headers decode to themselves, byte
decoding with an announced charset always fails over to replacement,
dates never parse. -/
def envDefault : DecodeEnv :=
  { decodeHeaderLib := fun s => some [.txt s]
    decodeBytesWith := fun _ _ => none
    utf8Replace := fun _ => "?"
    parsedate := fun _ => none }

/-- The server of the spec scenario: 3 messages (ids 1,2,3) in INBOX and
2 messages (ids 1,2) in Junk; header fetches fail. -/
def serverScenario : ImapServer :=
  { search := fun f =>
      if f = "INBOX" then some [1, 2, 3]
      else if f = "Junk" then some [1, 2] else none
    fetchHeaders := fun _ _ => none }

/-! ### Claims -/

/-- C1: for every listing request (pages are 1-based, as the route
enforces), `_sync_list_emails` reports `total_emails` as the length of
the candidate order — each folder's searched id sequence reversed, the
folders concatenated in folder-list order (INBOX before Junk for view
"all") — before any slicing, and builds the page from exactly the slice
`[(page-1)*pageSize, (page-1)*pageSize + pageSize)` of that candidate
order; in the spec scenario (3 INBOX messages with ids 1,2,3 and 2 Junk
messages with ids 1,2, view "all", page 1, pageSize 3) the candidate
order is [INBOX:3, INBOX:2, INBOX:1, Junk:2, Junk:1], totalCount is 5,
and the slice is [INBOX:3, INBOX:2, INBOX:1]. -/
theorem C1_candidate_order_pagination :
    (∀ (connectOk authOk : Bool) (env : DecodeEnv) (server : ImapServer)
        (emailAddr folderView : String) (page pageSize : Nat) (nowIso : String)
        (r : EmailListResponse), 1 ≤ page →
        (sync_list_emails connectOk authOk env server emailAddr folderView
            page pageSize nowIso).1 = .ok r →
        r.total_emails = (candidateOrder server (foldersToCheck folderView)).length
        ∧ r.emails = sortByDateDesc (fetchPhase env server nowIso (groupConsec
            (sortD folderLe (pageSliceOf
              (candidateOrder server (foldersToCheck folderView)) page pageSize)))))
    ∧ candidateOrder serverScenario (foldersToCheck "all")
        = [("INBOX", 3), ("INBOX", 2), ("INBOX", 1), ("Junk", 2), ("Junk", 1)]
    ∧ (candidateOrder serverScenario (foldersToCheck "all")).length = 5
    ∧ pageSliceOf (candidateOrder serverScenario (foldersToCheck "all")) 1 3
        = [("INBOX", 3), ("INBOX", 2), ("INBOX", 1)] := by
  refine ⟨?_, by decide, by decide, by decide⟩
  intro connectOk authOk env server emailAddr folderView page pageSize nowIso r _ h
  rw [sync_list_emails_ok _ _ _ _ _ _ _ _ _ _ h]
  exact ⟨rfl, rfl⟩

/-- The listing of the spec scenario: 5 candidates, empty page contents
because the fixture server fails header fetches. -/
def respScenario : EmailListResponse :=
  { email_id := "a@example.com"
    folder_view := "all"
    page := 1
    page_size := 3
    total_emails := 5
    emails := [] }

/-- Witness for C1 at the spec scenario. -/
theorem C1_witness :
    ((1 : Nat) ≤ 1
    ∧ (sync_list_emails true true envDefault serverScenario "a@example.com" "all"
        1 3 "2024-01-01T00:00:00").1 = .ok respScenario)
    ∧ respScenario.total_emails
        = (candidateOrder serverScenario (foldersToCheck "all")).length
    ∧ respScenario.emails = sortByDateDesc (fetchPhase envDefault serverScenario
        "2024-01-01T00:00:00" (groupConsec (sortD folderLe (pageSliceOf
          (candidateOrder serverScenario (foldersToCheck "all")) 1 3)))) :=
  ⟨⟨by decide, by rfl⟩,
   C1_candidate_order_pagination.1 true true envDefault serverScenario
     "a@example.com" "all" 1 3 "2024-01-01T00:00:00" respScenario
     (by decide) (by rfl)⟩

/-- C6: for every MessageRef the system produces — its folder name is
"INBOX" or "Junk", hence free of the separator `'-'` — parsing the
composite id formatted from it returns the same folder name and native
id; and parsing any composite id that does not contain `'-'` fails with
the InvalidIdentifier error `HTTPException(400, "Invalid message_id
format")`. -/
theorem C6_composite_id_roundtrip (folderName nativeId : String)
    (hf : '-' ∉ folderName.data) (s : String) (hs : '-' ∉ s.data) :
    parse_message_id (format_message_id folderName nativeId)
        = some (folderName, nativeId)
      ∧ parse_message_id_stage s
        = .error (.http 400 "Invalid message_id format") := by
  constructor
  · unfold parse_message_id format_message_id
    have hdata : (folderName ++ "-" ++ nativeId).data
        = folderName.data ++ '-' :: nativeId.data := by
      show (folderName.data ++ ['-']) ++ nativeId.data
          = folderName.data ++ '-' :: nativeId.data
      rw [List.append_assoc]
      rfl
    rw [hdata, splitFirstDash_append _ _ hf]
  · unfold parse_message_id_stage parse_message_id
    rw [splitFirstDash_none _ hs]

/-- Witness for C6 on a system-produced reference and a separator-free id. -/
theorem C6_witness :
    ('-' ∉ ("INBOX" : String).data ∧ '-' ∉ ("abc" : String).data)
    ∧ parse_message_id (format_message_id "INBOX" "3") = some ("INBOX", "3")
    ∧ parse_message_id_stage "abc" = .error (.http 400 "Invalid message_id format") :=
  ⟨⟨by decide, by decide⟩,
   (C6_composite_id_roundtrip "INBOX" "3" (by decide) "abc" (by decide)).1,
   (C6_composite_id_roundtrip "INBOX" "3" (by decide) "abc" (by decide)).2⟩

/-- 2024-01-01 12:00:00 at offset +00:00 — UTC instant 12:00. -/
def dOld : PyDateTime := ⟨2024, 1, 1, 12, 0, 0, some 0⟩

/-- 2024-01-01 10:00:00 at offset -05:00 — UTC instant 15:00, strictly
newer than `dOld`. -/
def dNew : PyDateTime := ⟨2024, 1, 1, 10, 0, 0, some (-300)⟩

/-- Decoding environment for the date-sort counterexample: two RFC 2822
date headers parse to `dOld` and `dNew`. -/
def envCex : DecodeEnv :=
  { decodeHeaderLib := fun s => some [.txt s]
    decodeBytesWith := fun _ _ => none
    utf8Replace := fun _ => "?"
    parsedate := fun s =>
      if s = "Mon, 01 Jan 2024 12:00:00 +0000" then some dOld
      else if s = "Mon, 01 Jan 2024 10:00:00 -0500" then some dNew
      else none }

/-- Server for the date-sort counterexample: two INBOX messages, message
2 carrying the newer date `dNew`, message 1 the older date `dOld`. -/
def serverCex : ImapServer :=
  { search := fun f => if f = "INBOX" then some [1, 2] else none
    fetchHeaders := fun f ids =>
      if f = "INBOX" && ids == [2, 1] then
        some [(2, ⟨some "s2", some "b@x.com", some "Mon, 01 Jan 2024 10:00:00 -0500"⟩),
              (1, ⟨some "s1", some "a@x.com", some "Mon, 01 Jan 2024 12:00:00 +0000"⟩)]
      else none }

/-- C2 is false on the code: at this concrete input the returned page
lists first the summary whose decoded date is `dOld` (UTC instant
2024-01-01 12:00) and below it the one decoding to `dNew` (UTC instant
15:00), although `dNew` is strictly newer — so the final user-visible
order is not the decoded dates descending.  Line 562 sorts by the
formatted date string, and "…T12:00:00+00:00" compares above
"…T10:00:00-05:00" lexicographically even though it denotes the earlier
instant. -/
theorem C2_counterexample :
    ((sync_list_emails true true envCex serverCex "a@example.com" "inbox" 1 10
        "2024-01-01T00:00:00").1.map (fun r => r.emails.map EmailItem.date))
      = .ok [dOld.isoformat, dNew.isoformat]
    ∧ envCex.parsedate "Mon, 01 Jan 2024 12:00:00 +0000" = some dOld
    ∧ envCex.parsedate "Mon, 01 Jan 2024 10:00:00 -0500" = some dNew
    ∧ dateInstant dOld < dateInstant dNew :=
  ⟨by rfl, by rfl, by rfl, by decide⟩

/-- C2 (amended): every page `_sync_list_emails` returns is sorted by
the formatted date string, lexicographically descending (line 562 keys
the sort on the string field `x.date`); this coincides with
decoded-date order when the compared dates carry the same UTC offset,
but not across different offsets. -/
theorem C2_sorted_by_date_string (connectOk authOk : Bool) (env : DecodeEnv)
    (server : ImapServer) (emailAddr folderView : String) (page pageSize : Nat)
    (nowIso : String) (r : EmailListResponse)
    (h : (sync_list_emails connectOk authOk env server emailAddr folderView
        page pageSize nowIso).1 = .ok r) :
    r.emails.Pairwise (fun a b => dateGe a b = true) := by
  rw [sync_list_emails_ok _ _ _ _ _ _ _ _ _ _ h]
  exact pairwise_sortD dateGe dateGe_total dateGe_trans _

/-- The listing the counterexample input produces. -/
def respCex : EmailListResponse :=
  { email_id := "a@example.com"
    folder_view := "inbox"
    page := 1
    page_size := 10
    total_emails := 2
    emails :=
      [{ message_id := "INBOX-1"
         folder := "INBOX"
         subject := "s1"
         from_email := "a@x.com"
         date := "2024-01-01T12:00:00+00:00"
         is_read := false
         has_attachments := false
         sender_initial := "A" },
       { message_id := "INBOX-2"
         folder := "INBOX"
         subject := "s2"
         from_email := "b@x.com"
         date := "2024-01-01T10:00:00-05:00"
         is_read := false
         has_attachments := false
         sender_initial := "B" }] }

/-- Witness for the amended C2 at a concrete two-message listing. -/
theorem C2_witness :
    (sync_list_emails true true envCex serverCex "a@example.com" "inbox" 1 10
        "2024-01-01T00:00:00").1 = .ok respCex
    ∧ respCex.emails.Pairwise (fun a b => dateGe a b = true) :=
  ⟨by rfl,
   C2_sorted_by_date_string true true envCex serverCex "a@example.com" "inbox"
     1 10 "2024-01-01T00:00:00" respCex (by rfl)⟩

/-- C3 is false on the code for the detail operation: when the detail
fetch reports a non-OK status — the not-found case of line 622 —
`_sync_get_email_details` raises `HTTPException(404, "Email not
found")`, which `except HTTPException: raise` (lines 661-662) re-raises
without any logout, so the operation exits with the connection still
open (second component `true`). -/
theorem C3_counterexample :
    (sync_get_email_details .fetchNotOk envDefault "INBOX-1"
        "2024-01-01T00:00:00").2 = true
    ∧ (sync_get_email_details .fetchNotOk envDefault "INBOX-1"
        "2024-01-01T00:00:00").1 = .error (.http 404 "Email not found") :=
  ⟨rfl, rfl⟩

/-- C3 (amended): the listing operation closes its protocol connection
on every exit path, and the detail operation closes it on every exit
path except the not-found case (fetch status non-OK), where the
`HTTPException(404)` propagates without a logout. -/
theorem C3_session_closed :
    (∀ (o : DetailOutcome) (env : DecodeEnv) (messageId nowIso : String),
        o ≠ .fetchNotOk →
        (sync_get_email_details o env messageId nowIso).2 = false)
    ∧ (∀ (connectOk authOk : Bool) (env : DecodeEnv) (server : ImapServer)
        (emailAddr folderView : String) (page pageSize : Nat) (nowIso : String),
        (sync_list_emails connectOk authOk env server emailAddr folderView
            page pageSize nowIso).2 = false) := by
  constructor
  · intro o env messageId nowIso ho
    cases o with
    | connectFail => rfl
    | authFail => rfl
    | opRaise => rfl
    | fetchNotOk => exact absurd rfl ho
    | fetchOk m => rfl
  · intro connectOk authOk env server emailAddr folderView page pageSize nowIso
    cases connectOk <;> cases authOk <;> rfl

/-- Witness for the amended C3 on a generic-exception detail exit and a
successful listing exit. -/
theorem C3_witness :
    DetailOutcome.opRaise ≠ DetailOutcome.fetchNotOk
    ∧ (sync_get_email_details .opRaise envDefault "INBOX-1"
        "2024-01-01T00:00:00").2 = false
    ∧ (sync_list_emails true true envDefault serverScenario "a@example.com"
        "all" 1 3 "2024-01-01T00:00:00").2 = false :=
  ⟨fun h => DetailOutcome.noConfusion h,
   C3_session_closed.1 .opRaise envDefault "INBOX-1" "2024-01-01T00:00:00"
     (fun h => DetailOutcome.noConfusion h),
   C3_session_closed.2 true true envDefault serverScenario "a@example.com"
     "all" 1 3 "2024-01-01T00:00:00"⟩

/-- C4: `check_account_status` never raises for any token-exchange
outcome — it always returns a boolean value; when the exchange fails
with an `httpx.HTTPError` (e.g. the identity provider answers HTTP 400
for a bad refresh token, raised by `raise_for_status`) it returns
`false`; and `list_emails` on the same failing credential — with no
cached page masking the failure — fails with the AuthFailure
`HTTPException(401, "Invalid credentials")`, not a crash or a server
error. -/
theorem C4_liveness_never_throws :
    (∀ o : TokenOutcome, ∃ b : Bool, check_account_status o = .ok b)
    ∧ check_account_status .httpError = .ok false
    ∧ (∀ (c : Cache) (emailAddr folderView : String) (page pageSize : Nat)
        (forceRefresh connectOk authOk : Bool) (env : DecodeEnv)
        (server : ImapServer) (nowIso : String) (t : Nat),
        (cache_get (if forceRefresh then clear_user c emailAddr else c)
            emailAddr folderView page pageSize t).1 = none →
        (list_emails c emailAddr folderView page pageSize forceRefresh .httpError
            connectOk authOk env server nowIso t).1
          = .error (.http 401 "Invalid credentials")) := by
  refine ⟨fun o => ?_, rfl, ?_⟩
  · cases o <;> exact ⟨_, rfl⟩
  · intro c emailAddr folderView page pageSize forceRefresh connectOk authOk env
      server nowIso t h
    simp only [list_emails]
    rcases hcg : cache_get (if forceRefresh then clear_user c emailAddr else c)
        emailAddr folderView page pageSize t with ⟨ov, c1⟩
    rw [hcg] at h
    cases ov with
    | some r => exact Option.noConfusion h
    | none => rfl

/-- Witness for C4 at an empty cache. -/
theorem C4_witness :
    (cache_get (if false then clear_user (fun _ => none) "a@example.com"
        else (fun _ => none)) "a@example.com" "all" 1 10 0).1 = none
    ∧ (list_emails (fun _ => none) "a@example.com" "all" 1 10 false .httpError
        true true envDefault serverScenario "2024-01-01T00:00:00" 0).1
      = .error (.http 401 "Invalid credentials") :=
  ⟨rfl,
   C4_liveness_never_throws.2.2 (fun _ => none) "a@example.com" "all" 1 10
     false true true envDefault serverScenario "2024-01-01T00:00:00" 0 rfl⟩

/-- C5: a listing call carrying forceRefresh=true removes every cache
entry of the account — all pages, folder views and page sizes, every
key prefixed `"{email}:"` — before the cache lookup, so its own lookup
misses even when an unexpired entry was present; and every entry the
account owns in the resulting cache state carries creation time `t` of
the refreshing call itself, so an identical-key call afterwards can
never be served a value cached before the refresh, TTL notwithstanding. -/
theorem C5_force_refresh (c : Cache) (emailAddr folderView : String)
    (page pageSize : Nat) (tok : TokenOutcome) (connectOk authOk : Bool)
    (env : DecodeEnv) (server : ImapServer) (nowIso : String) (t : Nat) :
    (cache_get (clear_user c emailAddr) emailAddr folderView page pageSize t).1
      = none
    ∧ (∀ (k : String) (v : EmailListResponse) (ts : Nat),
        listPre (emailAddr ++ ":").data k.data = true →
        (list_emails c emailAddr folderView page pageSize true tok connectOk
            authOk env server nowIso t).2 k = some (v, ts) →
        ts = t) := by
  constructor
  · rw [cache_get_cleared]
  · intro k v ts hpre hsome
    simp only [list_emails, if_true] at hsome
    rw [cache_get_cleared] at hsome
    cases htok : get_access_token tok false with
    | error e =>
      rw [htok] at hsome
      dsimp only at hsome
      rw [clear_user_no_entry c emailAddr k hpre] at hsome
      exact Option.noConfusion hsome
    | ok otok =>
      rw [htok] at hsome
      rcases hsync : sync_list_emails connectOk authOk env server emailAddr
          folderView page pageSize nowIso with ⟨res, lk⟩
      rw [hsync] at hsome
      cases res with
      | error e =>
        dsimp only at hsome
        rw [clear_user_no_entry c emailAddr k hpre] at hsome
        exact Option.noConfusion hsome
      | ok r =>
        dsimp only at hsome
        simp only [cache_set] at hsome
        by_cases hk : k = cache_key emailAddr folderView page pageSize
        · rw [if_pos hk] at hsome
          injection hsome with h1
          exact (congrArg Prod.snd h1).symm
        · rw [if_neg hk] at hsome
          rw [clear_user_no_entry c emailAddr k hpre] at hsome
          exact Option.noConfusion hsome

/-- The listing stored by the C5 witness call (candidates found, header
fetches failing). -/
def respWit : EmailListResponse :=
  { email_id := "a@example.com"
    folder_view := "all"
    page := 1
    page_size := 10
    total_emails := 5
    emails := [] }

/-- Witness for C5: after a force-refresh call on an empty cache the
account's only entry is the freshly stored one, created at the call
time 42. -/
theorem C5_witness :
    listPre ("a@example.com" ++ ":").data
        (cache_key "a@example.com" "all" 1 10).data = true
    ∧ (list_emails (fun _ => none) "a@example.com" "all" 1 10 true (.okToken "T")
        true true envDefault serverScenario "2024-01-01T00:00:00" 42).2
        (cache_key "a@example.com" "all" 1 10) = some (respWit, 42)
    ∧ (42 : Nat) = 42 :=
  ⟨by decide, by rfl,
   (C5_force_refresh (fun _ => none) "a@example.com" "all" 1 10 (.okToken "T")
      true true envDefault serverScenario "2024-01-01T00:00:00" 42).2
     (cache_key "a@example.com" "all" 1 10) respWit 42 (by decide) (by rfl)⟩

/-- C7: header decoding never raises — every raising library call is
handled, so `decode_header_value` is a total function into strings:
a part whose charset lookup or decode raises falls back to permissive
utf-8 decoding with replacement characters, an exception from
`decode_header` itself falls back to the raw header value, and the
subject placed in a listing record is never empty (a blank or absent
subject becomes "(No Subject)" through the `or` at line 521). -/
theorem C7_decoder_robustness (env : DecodeEnv) (v : Option String)
    (b : List Nat) (cs : Option String) (s : String) :
    (env.decodeBytesWith (cs.getD "utf-8") b = none →
      decodePart env (.bin b cs) = env.utf8Replace b)
    ∧ (s ≠ "" → env.decodeHeaderLib s = none →
      decode_header_value env (some s) = s)
    ∧ subject_of_header env v ≠ "" := by
  refine ⟨fun h => ?_, fun hs h => ?_, ?_⟩
  · unfold decodePart
    dsimp only
    rw [h]
  · unfold decode_header_value
    dsimp only
    rw [if_neg hs, h]
  · unfold subject_of_header pyOr
    split
    · decide
    · assumption

/-- A decoding environment in which nothing decodes: every charset is
unknown, `decode_header` always raises. -/
def envUndecodable : DecodeEnv :=
  { decodeHeaderLib := fun _ => none
    decodeBytesWith := fun _ _ => none
    utf8Replace := fun _ => "R"
    parsedate := fun _ => none }

/-- Witness for C7 on an unknown charset, a header the library cannot
parse, and an empty subject. -/
theorem C7_witness :
    (envUndecodable.decodeBytesWith ((some "x-unknown").getD "utf-8") [200] = none
    ∧ ("=?broken" : String) ≠ ""
    ∧ envUndecodable.decodeHeaderLib "=?broken" = none)
    ∧ decodePart envUndecodable (.bin [200] (some "x-unknown"))
        = envUndecodable.utf8Replace [200]
    ∧ decode_header_value envUndecodable (some "=?broken") = "=?broken"
    ∧ subject_of_header envUndecodable (some "") ≠ "" :=
  ⟨⟨rfl, by decide, rfl⟩,
   (C7_decoder_robustness envUndecodable (some "") [200] (some "x-unknown")
     "=?broken").1 rfl,
   (C7_decoder_robustness envUndecodable (some "") [200] (some "x-unknown")
     "=?broken").2.1 (by decide) rfl,
   (C7_decoder_robustness envUndecodable (some "") [200] (some "x-unknown")
     "=?broken").2.2⟩

/-- C8: every summary in a returned listing has `is_read = false` and
`has_attachments = false`, whatever the server reports — lines 551-552
hard-code both flags. -/
theorem C8_flags_constant (connectOk authOk : Bool) (env : DecodeEnv)
    (server : ImapServer) (emailAddr folderView : String) (page pageSize : Nat)
    (nowIso : String) (r : EmailListResponse) (it : EmailItem)
    (h : (sync_list_emails connectOk authOk env server emailAddr folderView
        page pageSize nowIso).1 = .ok r)
    (hmem : it ∈ r.emails) :
    it.is_read = false ∧ it.has_attachments = false := by
  rw [sync_list_emails_ok _ _ _ _ _ _ _ _ _ _ h] at hmem
  have hmem2 : it ∈ fetchPhase env server nowIso (groupConsec (sortD folderLe
      (pageSliceOf (candidateOrder server (foldersToCheck folderView))
        page pageSize))) :=
    (mem_sortD dateGe it _).mp hmem
  exact mem_fetchPhase_flags env server nowIso _ []
    (fun x hx => absurd hx (List.not_mem_nil x)) it hmem2

/-- The first summary of the C2 fixture listing. -/
def itemCexOld : EmailItem :=
  { message_id := "INBOX-1"
    folder := "INBOX"
    subject := "s1"
    from_email := "a@x.com"
    date := "2024-01-01T12:00:00+00:00"
    is_read := false
    has_attachments := false
    sender_initial := "A" }

/-- Witness for C8 at a concrete fetched summary. -/
theorem C8_witness :
    ((sync_list_emails true true envCex serverCex "a@example.com" "inbox" 1 10
        "2024-01-01T00:00:00").1 = .ok respCex
    ∧ itemCexOld ∈ respCex.emails)
    ∧ itemCexOld.is_read = false ∧ itemCexOld.has_attachments = false :=
  ⟨⟨by rfl, by decide⟩,
   C8_flags_constant true true envCex serverCex "a@example.com" "inbox" 1 10
     "2024-01-01T00:00:00" respCex itemCexOld (by rfl) (by decide)⟩

/-- C9: `clear_user` removes only entries of the invalidated account:
the entry of any other account — its value and its creation timestamp —
is unchanged.  The hypotheses that neither address contains `':'` hold
for every address the system stores, since the route models validate
them as email addresses, whose validated grammar excludes `':'`. -/
theorem C9_clear_user_frame (c : Cache) (e e2 f : String) (p s : Nat)
    (he : ':' ∉ e.data) (he2 : ':' ∉ e2.data) (hne : e ≠ e2) :
    clear_user c e (cache_key e2 f p s) = c (cache_key e2 f p s) := by
  have hfalse : listPre (e ++ ":").data (cache_key e2 f p s).data = false := by
    cases hlp : listPre (e ++ ":").data (cache_key e2 f p s).data with
    | false => rfl
    | true =>
      exfalso
      apply hne
      apply String.ext
      rw [cache_key_data] at hlp
      exact listPre_colon e.data e2.data _ he he2 hlp
  unfold clear_user
  rw [hfalse]
  rfl

/-- A cache holding one entry owned by account `b@y.com`, created at
time 7. -/
def cacheWithOther : Cache :=
  fun k => if k = cache_key "b@y.com" "all" 1 10 then some (respWit, 7) else none

/-- Witness for C9: invalidating `a@x.com` leaves the entry of
`b@y.com` untouched. -/
theorem C9_witness :
    (':' ∉ ("a@x.com" : String).data ∧ ':' ∉ ("b@y.com" : String).data
      ∧ ("a@x.com" : String) ≠ "b@y.com")
    ∧ clear_user cacheWithOther "a@x.com" (cache_key "b@y.com" "all" 1 10)
        = cacheWithOther (cache_key "b@y.com" "all" 1 10) :=
  ⟨⟨by decide, by decide, by decide⟩,
   C9_clear_user_frame cacheWithOther "a@x.com" "b@y.com" "all" 1 10
     (by decide) (by decide) (by decide)⟩

/-- C10: for a non-multipart message whose content type is neither
text/plain nor text/html, body extraction returns the decoded payload
as the plain body with the HTML body empty (the `else` branch of line
190 treats any other type as plain text), rather than returning no body
at all. -/
theorem C10_other_ctype_plain_body (env : DecodeEnv) (p : MsgPart)
    (b : List Nat) (content : String)
    (hp : p.payload = some b) (hb : b.isEmpty = false)
    (hdec : env.decodeBytesWith (p.charset.getD "utf-8") b = some content)
    (h1 : p.ctype ≠ "text/plain") (h2 : p.ctype ≠ "text/html") :
    extract_email_content env (.single p) = (content, "") := by
  simp only [extract_email_content, hp, hb, hdec, Bool.false_eq_true, if_false]
  rw [if_neg h1, if_neg h2]

/-- An environment whose byte decoding succeeds with a fixed string. -/
def envC10 : DecodeEnv :=
  { decodeHeaderLib := fun s => some [.txt s]
    decodeBytesWith := fun _ _ => some "payload-text"
    utf8Replace := fun _ => "?"
    parsedate := fun _ => none }

/-- A non-multipart part with a content type that is neither text/plain
nor text/html. -/
def partC10 : MsgPart :=
  { ctype := "application/octet-stream"
    disposition := ""
    charset := none
    payload := some [1, 2] }

/-- Witness for C10 on a concrete application/octet-stream message. -/
theorem C10_witness :
    (partC10.payload = some [1, 2]
    ∧ ([1, 2] : List Nat).isEmpty = false
    ∧ envC10.decodeBytesWith ((none : Option String).getD "utf-8") [1, 2]
        = some "payload-text"
    ∧ partC10.ctype ≠ "text/plain" ∧ partC10.ctype ≠ "text/html")
    ∧ extract_email_content envC10 (.single partC10) = ("payload-text", "") :=
  ⟨⟨rfl, rfl, rfl, by decide, by decide⟩,
   C10_other_ctype_plain_body envC10 partC10 [1, 2] "payload-text" rfl rfl rfl
     (by decide) (by decide)⟩

end Outlook
